import Mathlib

/-!
Shallow embedding of `ruby-analyzer` (minimal-language front end):
`src/parser.rs` (nom-based parser for the toy assignment language) and
`src/typecheck.rs` (flat instance/class environment and the recursive
`typecheck` function).  Rust's `fn typecheck(node: &Node, env: &mut Env)
-> Result<Type, TypecheckError>` is embedded as a pure function returning
the result together with the (possibly mutated) environment.
-/

set_option linter.unusedVariables false

namespace RubyAnalyzer

/-- `parser.rs`: `Location { line: u32, column: usize }` (both modelled as `Nat`). -/
structure Location where
  line : Nat
  column : Nat
deriving DecidableEq, Repr

mutual

/-- `parser.rs`: `Node { node_type: NodeType, location: Location }`, mutually
inductive with `NodeType` because `NodeType::Assignment` holds a boxed `Node`. -/
inductive Node where
  | mk (node_type : NodeType) (location : Location) : Node
deriving DecidableEq, Repr

/-- `parser.rs`: `NodeType` (`Integer(i64)`, `String(String)`, `Variable(String)`,
`Assignment(String, Box<Node>)`). -/
inductive NodeType where
  | Integer (value : Int) : NodeType
  | String (value : String) : NodeType
  | Variable (name : String) : NodeType
  | Assignment (name : String) (value : Node) : NodeType
deriving DecidableEq, Repr

end

/-- Field accessor for `Node.node_type`. -/
def Node.node_type : Node → NodeType
  | .mk nt _ => nt

/-- Field accessor for `Node.location`. -/
def Node.location : Node → Location
  | .mk _ l => l

/-- `typecheck.rs`: `type ClassName = String`. -/
abbrev ClassName := String

/-- `typecheck.rs`: `enum Type { Variable(ClassName), Function(Vec<ClassName>, ClassName) }`.
Named `Ty` because `Type` is reserved in Lean; the constructors keep the Rust names. -/
inductive Ty where
  | Variable (name : ClassName) : Ty
  | Function (args : List ClassName) (ret : ClassName) : Ty
deriving DecidableEq, Repr

/-- `typecheck.rs`: `type Identifier = String`. -/
abbrev Identifier := String

/-- `typecheck.rs`: `Instance { id: Identifier, ty: Type }`. -/
structure Instance where
  id : Identifier
  ty : Ty
deriving DecidableEq, Repr

/-- `Instance::new`. -/
def Instance.new (id : Identifier) (ty : Ty) : Instance := ⟨id, ty⟩

/-- `typecheck.rs`: `Class { methods: HashMap<String, Type> }`.  The `HashMap` is
embedded as an association list; `default_class` builds it by `insert`. -/
structure Class where
  methods : List (String × Ty)
deriving DecidableEq, Repr

/-- `Class::new`. -/
def Class.new (methods : List (String × Ty)) : Class := ⟨methods⟩

/-- `HashMap::insert`: replace the binding of an existing key, else append. -/
def mapInsert {α : Type} (k : String) (v : α) : List (String × α) → List (String × α)
  | [] => [(k, v)]
  | (k₁, v₁) :: rest =>
      if k₁ = k then (k, v) :: rest else (k₁, v₁) :: mapInsert k v rest

/-- `HashMap::get`. -/
def mapGet {α : Type} (k : String) (m : List (String × α)) : Option α :=
  (m.find? (fun p => p.1 == k)).map (fun p => p.2)

/-- `typecheck.rs`: `Env { instances: Vec<Instance>, classes: HashMap<String, Class> }`. -/
structure Env where
  instances : List Instance
  classes : List (String × Class)
deriving DecidableEq, Repr

/-- `Env::new`. -/
def Env.new (instances : List Instance) (classes : List (String × Class)) : Env :=
  ⟨instances, classes⟩

/-- `Env::add_instance`: `self.instances.push(Instance::new(name.to_string(), ty))`. -/
def Env.add_instance (env : Env) (name : String) (ty : Ty) : Env :=
  { env with instances := env.instances ++ [Instance.new name ty] }

/-- `Env::get_instance_type`: scan `instances.iter().rev()` for the first binding
of `name` (most recent first). -/
def Env.get_instance_type (env : Env) (name : String) : Option Ty :=
  (env.instances.reverse.find? (fun inst => inst.id == name)).map (fun inst => inst.ty)

/-- `Env::get_class`: `self.classes.get(name)`. -/
def Env.get_class (env : Env) (name : String) : Option Class :=
  mapGet name env.classes

/-- `typecheck.rs::default_class`: a fresh class table holding `Integer` with the
single method `to_s : () -> String`. -/
def default_class : List (String × Class) :=
  mapInsert "Integer"
    (Class.mk (mapInsert "to_s" (Ty.Function [] "String") []))
    []

/-- `impl Default for Env`: empty instance list, `default_class()` class table. -/
def Env.default : Env :=
  { instances := [], classes := default_class }

/-- `typecheck.rs`: `enum TypecheckErrorKind { UndefinedVariable(String) }`. -/
inductive TypecheckErrorKind where
  | UndefinedVariable (name : String) : TypecheckErrorKind
deriving DecidableEq, Repr

/-- `typecheck.rs`: `TypecheckError { node: Node, kind: TypecheckErrorKind }`. -/
structure TypecheckError where
  node : Node
  kind : TypecheckErrorKind
deriving DecidableEq, Repr

/-- `pub fn typecheck(node: &Node, env: &mut Env) -> TypecheckResult<Type>`:
the `&mut Env` becomes an explicit `Env` in and out; the `?` in the
`Assignment` arm propagates the error of the right-hand side. -/
def typecheck : Node → Env → (Except TypecheckError Ty) × Env
  | .mk nt loc, env =>
    match nt with
    | .Integer _ => (.ok (Ty.Variable "Integer"), env)
    | .String _ => (.ok (Ty.Variable "String"), env)
    | .Variable name =>
        match env.get_instance_type name with
        | some ty => (.ok ty, env)
        | none =>
            (.error ⟨Node.mk (NodeType.Variable name) loc,
                     TypecheckErrorKind.UndefinedVariable name⟩, env)
    | .Assignment name node =>
        match typecheck node env with
        | (.ok ty, env₁) => (.ok ty, env₁.add_instance name ty)
        | (.error e, env₁) => (.error e, env₁)

/-!
Embedding of `parser.rs`.  A nom `Span` (`nom_locate::LocatedSpan<&str>`) is the
remaining input together with the 1-based line and column of its start; a nom
parser `Span -> IResult<Span, T>` becomes `Span → Option (Span × T)` (`none`
is a nom error; the recoverable/fatal distinction is irrelevant here because no
parser in the file uses cut/Failure).
-/

/-- `nom_locate::LocatedSpan`: remaining input plus the 1-based line and column
(`location_line` / `get_column`) of its first character. -/
structure Span where
  input : List Char
  line : Nat
  col : Nat
deriving DecidableEq, Repr

/-- `Span::new`: start of the whole input, line 1, column 1. -/
def Span.new (s : String) : Span := ⟨s.data, 1, 1⟩

/-- Advance a line/column position over a list of consumed characters
(`\n` starts a new line; every other character moves one column right). -/
def advancePos : Nat → Nat → List Char → Nat × Nat
  | line, col, [] => (line, col)
  | line, col, c :: cs =>
      if c = '\n' then advancePos (line + 1) 1 cs else advancePos line (col + 1) cs

/-- Split a list at the first character failing `p` (helper for `take_while`). -/
def splitWhile (p : Char → Bool) : List Char → List Char × List Char
  | [] => ([], [])
  | c :: cs =>
      if p c then
        let r := splitWhile p cs
        (c :: r.1, r.2)
      else ([], c :: cs)

/-- nom `take_while`: consume the longest prefix satisfying `p`; never fails. -/
def take_while (p : Char → Bool) (sp : Span) : Option (Span × List Char) :=
  let r := splitWhile p sp.input
  let lc := advancePos sp.line sp.col r.1
  some (⟨r.2, lc.1, lc.2⟩, r.1)

/-- Shared body of nom `digit1` / `alphanumeric1`: the longest nonempty prefix
satisfying `p`, failing on an empty match. -/
def many1Chars (p : Char → Bool) (sp : Span) : Option (Span × List Char) :=
  match take_while p sp with
  | some (sp₁, tk) => if tk.isEmpty then none else some (sp₁, tk)
  | none => none

/-- nom `digit1`: one or more ASCII digits. -/
def digit1 : Span → Option (Span × List Char) :=
  many1Chars Char.isDigit

/-- nom `alphanumeric1`: one or more ASCII letters or digits. -/
def alphanumeric1 : Span → Option (Span × List Char) :=
  many1Chars Char.isAlphanum

/-- nom `char(c)`: consume exactly the character `c`. -/
def charP (c : Char) (sp : Span) : Option (Span × Char) :=
  match sp.input with
  | [] => none
  | c₁ :: rest =>
      if c₁ = c then
        let lc := advancePos sp.line sp.col [c₁]
        some (⟨rest, lc.1, lc.2⟩, c)
      else none

/-- nom `multispace0`: zero or more of space, tab, carriage return, newline. -/
def multispace0 (sp : Span) : Option (Span × List Char) :=
  take_while (fun c => c == ' ' || c == '\t' || c == '\r' || c == '\n') sp

/-- nom `space0`: zero or more of space or tab. -/
def space0 (sp : Span) : Option (Span × List Char) :=
  take_while (fun c => c == ' ' || c == '\t') sp

/-- `parser.rs::location`: `nom_locate::position` turned into a `Location`. -/
def location (sp : Span) : Location := ⟨sp.line, sp.col⟩

/-- `parser.rs::parse_comment`: `#` followed by everything up to a newline. -/
def parse_comment (sp : Span) : Option (Span × Unit) := do
  let (sp₁, _) ← charP '#' sp
  let (sp₂, _) ← take_while (fun c => c != '\n') sp₁
  some (sp₂, ())

/-- `parser.rs::parse_ignore`: `alt((parse_comment, map(multispace0, ...)))`;
never fails because `multispace0` never fails. -/
def parse_ignore (sp : Span) : Option (Span × Unit) :=
  match parse_comment sp with
  | some (sp₁, _) => some (sp₁, ())
  | none =>
      match multispace0 sp with
      | some (sp₁, _) => some (sp₁, ())
      | none => none

/-- `digits.to_string().parse::<i64>().unwrap()` on a nonempty digit string. -/
def digitsToInt (cs : List Char) : Int :=
  Int.ofNat (cs.foldl (fun n c => n * 10 + (c.toNat - 48)) 0)

/-- `parser.rs::parse_integer`. -/
def parse_integer (sp : Span) : Option (Span × NodeType) := do
  let (sp₁, digits) ← digit1 sp
  some (sp₁, NodeType.Integer (digitsToInt digits))

/-- `parser.rs::parse_string`: `delimited(char('"'), take_while(|c| c != '"'), char('"'))`. -/
def parse_string (sp : Span) : Option (Span × NodeType) := do
  let (sp₁, _) ← charP '"' sp
  let (sp₂, content) ← take_while (fun c => c != '"') sp₁
  let (sp₃, _) ← charP '"' sp₂
  some (sp₃, NodeType.String (String.mk content))

/-- `parser.rs::parse_variable`. -/
def parse_variable (sp : Span) : Option (Span × NodeType) := do
  let (sp₁, name) ← alphanumeric1 sp
  some (sp₁, NodeType.Variable (String.mk name))

/-- `parser.rs::parse_assignment`:
`separated_pair(alphanumeric1, delimited(parse_ignore, char('='), parse_ignore),
parse_expression)`, abstracted over the mutually recursive `parse_expression`. -/
def parse_assignmentG (parse_expr : Span → Option (Span × Node)) (sp : Span) :
    Option (Span × NodeType) := do
  let (sp₁, var_name) ← alphanumeric1 sp
  let (sp₂, _) ← parse_ignore sp₁
  let (sp₃, _) ← charP '=' sp₂
  let (sp₄, _) ← parse_ignore sp₃
  let (sp₅, expr) ← parse_expr sp₄
  some (sp₅, NodeType.Assignment (String.mk var_name) expr)

/-- `parser.rs::parse_expression`: `with_location(alt((parse_assignment,
parse_string, parse_integer, parse_variable)))`, with an explicit recursion fuel
(each `parse_assignment` recursion consumes at least the name and the `=`, so
any fuel beyond the input length is enough). -/
def parse_expressionF : Nat → Span → Option (Span × Node)
  | 0, _ => none
  | fuel + 1, sp =>
      let loc := location sp
      match parse_assignmentG (parse_expressionF fuel) sp with
      | some (sp₁, nt) => some (sp₁, Node.mk nt loc)
      | none =>
          match parse_string sp with
          | some (sp₁, nt) => some (sp₁, Node.mk nt loc)
          | none =>
              match parse_integer sp with
              | some (sp₁, nt) => some (sp₁, Node.mk nt loc)
              | none =>
                  match parse_variable sp with
                  | some (sp₁, nt) => some (sp₁, Node.mk nt loc)
                  | none => none

/-- `parse_expression` at a fuel that the input length makes sufficient. -/
def parse_expression (sp : Span) : Option (Span × Node) :=
  parse_expressionF (sp.input.length + 1) sp

/-- `parse_assignment` as a standalone parser (as the Rust function is). -/
def parse_assignment (sp : Span) : Option (Span × NodeType) :=
  parse_assignmentG (parse_expressionF (sp.input.length + 1)) sp

/-- The separator of `parse_expressions`:
`alt((char(';'), char('\n'), map(parse_comment, |_| ' ')))`. -/
def parse_separator (sp : Span) : Option (Span × Char) :=
  match charP ';' sp with
  | some r => some r
  | none =>
      match charP '\n' sp with
      | some r => some r
      | none =>
          match parse_comment sp with
          | some (sp₁, _) => some (sp₁, ' ')
          | none => none

/-- The element of `parse_expressions`:
`preceded(parse_ignore, terminated(parse_expression, space0))`. -/
def parse_element (sp : Span) : Option (Span × Node) := do
  let (sp₁, _) ← parse_ignore sp
  let (sp₂, e) ← parse_expression sp₁
  let (sp₃, _) ← space0 sp₂
  some (sp₃, e)

/-- The loop of nom `separated_list0` after the first element: separator failure
ends the list; a separator that consumes nothing is nom's infinite-loop hard
error (`none` here); element failure after a separator ends the list without
consuming the separator.  Every iteration consumes at least one character, so
fuel beyond the input length never runs out. -/
def separated_list0F (fuel : Nat) (sp : Span) (acc : List Node) :
    Option (Span × List Node) :=
  match fuel with
  | 0 => none
  | fuel + 1 =>
      match parse_separator sp with
      | none => some (sp, acc)
      | some (sp₁, _) =>
          if sp₁.input.length = sp.input.length then none
          else
            match parse_element sp₁ with
            | none => some (sp, acc)
            | some (sp₂, e) => separated_list0F fuel sp₂ (acc ++ [e])

/-- nom `separated_list0(separator, element)` specialised as in
`parse_expressions`: first element failure yields the empty list. -/
def separated_list0 (sp : Span) : Option (Span × List Node) :=
  match parse_element sp with
  | none => some (sp, [])
  | some (sp₁, e) => separated_list0F (sp₁.input.length + 1) sp₁ [e]

/-- `parser.rs::parse_expressions`. -/
def parse_expressions (sp : Span) : Option (Span × List Node) := do
  let (sp₁, _) ← parse_ignore sp
  separated_list0 sp₁

/-- `parser.rs::parse`: run `parse_expressions`, then `parse_ignore` on the
leftover; both error branches collapse to a message (the Rust code formats the
nom error object in one of them; no claim inspects the message). -/
def parse (input : String) : Except String (List Node) :=
  match parse_expressions (Span.new input) with
  | some (rest, nodes) =>
      match parse_ignore rest with
      | some _ => .ok nodes
      | none => .error "parse error"
  | none => .error "parse error"

/-!
The visitor-style inference engine (`TypeChecker`) that the repository's
integration tests drive is not part of the sources available here — only its
callers are — so it is modelled from the spec (§3 data model, §4.1–§4.4
dispatcher/handler contracts): scoped local-variable tables, a value stack of
inferred types, an append-only error log, and the reserved "Unknown" sentinel
pushed on an undefined-variable read.
-/

mutual

/-- Modelled from the spec: the engine's `Type` value domain — `Alias(name)`
for a named class/primitive, or `Signature(methods)` mapping method names to
method types (missing from the sources here; spec §3). -/
inductive SType where
  | alias (name : String) : SType
  | sig (methods : List (String × SMethod)) : SType

/-- Modelled from the spec: `Method` — ordered argument types plus one return
type (missing from the sources here; spec §3). -/
inductive SMethod where
  | mk (args : List SType) (ret : SType) : SMethod

end

/-- Modelled from the spec: the engine's node model — literal, variable read,
variable write, statement sequence, method definition, each with a source span
(missing from the sources here; spec §2 and §6). -/
inductive SNode where
  | intLit (value : Int) (span : Location) : SNode
  | strLit (value : String) (span : Location) : SNode
  | varRead (name : String) (span : Location) : SNode
  | varWrite (name : String) (value : SNode) (span : Location) : SNode
  | seq (stmts : List SNode) (span : Location) : SNode
  | callableDef (name : String) (params : List SNode) (body : SNode)
      (span : Location) : SNode

/-- Modelled from the spec: the error-kind taxonomy — currently only
undefined-variable references (spec §7). -/
inductive STypeErrorKind where
  | undefinedVariable (name : String) : STypeErrorKind
deriving DecidableEq, Repr

/-- Modelled from the spec: `TypeError { kind, source_span }` (spec §4.4). -/
structure STypeError where
  kind : STypeErrorKind
  span : Location
deriving DecidableEq, Repr

/-- Modelled from the spec: the engine's mutable `Environment` — object table,
stack of local scopes, working value stack, append-only error log (spec §3). -/
structure TypeChecker where
  objects : List (String × SType)
  scopes : List (List (String × SType))
  value_stack : List SType
  errors : List STypeError

/-- Modelled from the spec: variable lookup consults only the top-of-stack
scope, with no enclosing-scope fallback (spec §4.1); no active frame means a
lookup miss. -/
def TypeChecker.lookupActive (tc : TypeChecker) (name : String) : Option SType :=
  match tc.scopes with
  | [] => none
  | s :: _ => mapGet name s

/-- Modelled from the spec: bind a name in the active scope (spec §4.3, the
variable-write handler); with no active frame the binding opens one. -/
def TypeChecker.bindActive (tc : TypeChecker) (name : String) (ty : SType) :
    TypeChecker :=
  match tc.scopes with
  | [] => { tc with scopes := [[(name, ty)]] }
  | s :: rest => { tc with scopes := mapInsert name ty s :: rest }

/-- Push one inferred type onto the value stack (spec §4.2). -/
def TypeChecker.pushValue (tc : TypeChecker) (ty : SType) : TypeChecker :=
  { tc with value_stack := ty :: tc.value_stack }

/-- The top of the value stack; the "Unknown" sentinel if empty (the spec's
push-one invariant §4.2 keeps the stack nonempty at every pop site). -/
def TypeChecker.peekValue (tc : TypeChecker) : SType :=
  match tc.value_stack with
  | [] => SType.alias "Unknown"
  | t :: _ => t

/-- Drop the top of the value stack (spec §4.2). -/
def TypeChecker.popValue (tc : TypeChecker) : TypeChecker :=
  { tc with value_stack := tc.value_stack.tail }

/-- Modelled from the spec: record a callable's inferred signature — an entry
in the root object's signature table mapping the callable's name to a method
with an empty argument list and the inferred return type (spec §4.3; the root
object's name follows the integration tests' `#main`). -/
def TypeChecker.addRootMethod (tc : TypeChecker) (name : String) (m : SMethod) :
    TypeChecker :=
  let table :=
    match mapGet "#main" tc.objects with
    | some (SType.sig ms) => ms
    | _ => []
  { tc with objects := mapInsert "#main" (SType.sig (mapInsert name m table)) tc.objects }

mutual

/-- Modelled from the spec: the dispatcher (spec §4.3) — strict post-order,
one pushed type per expression, errors appended without aborting:
literals push their built-in alias; a variable read pushes the bound type or
records one `UndefinedVariable` error and pushes the "Unknown" sentinel; a
variable write visits its value, binds the popped type in the active scope and
re-pushes it as the write's own value; a sequence keeps only its last
statement's value (an empty one pushes the sentinel); a callable definition
brackets its body in a fresh scope, pops the body's value as the return type,
visits its parameters for side effects only, and records `name ↦ ([], return)`
in the root object's signature table. -/
def TypeChecker.visit (tc : TypeChecker) : SNode → TypeChecker
  | .intLit _ _ => tc.pushValue (SType.alias "Integer")
  | .strLit _ _ => tc.pushValue (SType.alias "String")
  | .varRead name span =>
      match tc.lookupActive name with
      | some ty => tc.pushValue ty
      | none =>
          { tc with
              errors := tc.errors ++ [⟨STypeErrorKind.undefinedVariable name, span⟩],
              value_stack := SType.alias "Unknown" :: tc.value_stack }
  | .varWrite name value _ =>
      let tc₁ := tc.visit value
      let t := tc₁.peekValue
      ((tc₁.popValue.bindActive name t).pushValue t)
  | .seq stmts span => TypeChecker.visitSeq tc stmts span
  | .callableDef name params body _ =>
      let tc₁ := { tc with scopes := [] :: tc.scopes }
      let tc₂ := tc₁.visit body
      let ret := tc₂.peekValue
      let tc₃ := tc₂.popValue
      let tc₄ := { tc₃ with scopes := tc₃.scopes.tail }
      let tc₅ := TypeChecker.visitParams tc₄ params
      tc₅.addRootMethod name (SMethod.mk [] ret)

/-- Statement sequences in source order: every statement's value is popped and
discarded except the last one's, which remains as the sequence's value
(spec §4.3); an empty sequence pushes the sentinel to keep the push-one
invariant (§4.2). -/
def TypeChecker.visitSeq (tc : TypeChecker) : List SNode → Location → TypeChecker
  | [], _ => tc.pushValue (SType.alias "Unknown")
  | [s], _ => tc.visit s
  | s :: s₂ :: rest, span => TypeChecker.visitSeq ((tc.visit s).popValue) (s₂ :: rest) span

/-- Parameter nodes are visited for side effects only; their pushed values are
discarded and their types are not attached to the signature (spec §4.3, §9). -/
def TypeChecker.visitParams (tc : TypeChecker) : List SNode → TypeChecker
  | [] => tc
  | p :: rest => TypeChecker.visitParams ((tc.visit p).popValue) rest

end

/-- Modelled from the spec: a fresh engine — built-in tables constructed fresh
per analysis run (spec §9), the root object `#main` with an empty signature
table plus an integer-like built-in class exposing a stringify method
returning a string-like type (spec §3), one empty top-level scope, an empty
value stack and an empty error log. -/
def TypeChecker.new : TypeChecker :=
  { objects := [("#main", SType.sig []),
                ("Integer", SType.sig [("to_s", SMethod.mk [] (SType.alias "String"))])],
    scopes := [[]],
    value_stack := [],
    errors := [] }

mutual

/-- Number of nodes of a tree (recursion measure for the termination claim). -/
def Node.size : Node → Nat
  | .mk nt _ => nt.size

/-- Number of nodes below a `NodeType`. -/
def NodeType.size : NodeType → Nat
  | .Integer _ => 1
  | .String _ => 1
  | .Variable _ => 1
  | .Assignment _ value => value.size + 1

end

/-- `typecheck` with an explicit recursion-depth budget: `none` when the budget
runs out, otherwise exactly the result of `typecheck`.  Used to state that the
recursion of `typecheck` terminates within `Node.size` nested calls. -/
def typecheckF : Nat → Node → Env → Option ((Except TypecheckError Ty) × Env)
  | 0, _, _ => none
  | fuel + 1, .mk nt loc, env =>
      match nt with
      | .Integer _ => some (.ok (Ty.Variable "Integer"), env)
      | .String _ => some (.ok (Ty.Variable "String"), env)
      | .Variable name =>
          match env.get_instance_type name with
          | some ty => some (.ok ty, env)
          | none =>
              some (.error ⟨Node.mk (NodeType.Variable name) loc,
                            TypecheckErrorKind.UndefinedVariable name⟩, env)
      | .Assignment name value =>
          match typecheckF fuel value env with
          | none => none
          | some (.ok ty, env₁) => some (.ok ty, env₁.add_instance name ty)
          | some (.error e, env₁) => some (.error e, env₁)

/-- Looking a name up right after `add_instance` yields the type just added:
the new binding sits at the end of the list and the reversed scan meets it first. -/
theorem get_instance_type_add_self (env : Env) (name : String) (ty : Ty) :
    (env.add_instance name ty).get_instance_type name = some ty := by
  simp [Env.add_instance, Env.get_instance_type, Instance.new]

/-- `add_instance` touches only the instance list. -/
theorem add_instance_classes (env : Env) (name : String) (ty : Ty) :
    (env.add_instance name ty).classes = env.classes := rfl

/-- C4: for every integer literal node `typecheck` yields the alias type
`Integer`, and for every string literal node the alias type `String`
(in both cases leaving the environment untouched). -/
theorem typecheck_literal_types (v : Int) (s : String) (loc : Location) (env : Env) :
    typecheck (Node.mk (NodeType.Integer v) loc) env
        = (.ok (Ty.Variable "Integer"), env)
    ∧ typecheck (Node.mk (NodeType.String s) loc) env
        = (.ok (Ty.Variable "String"), env) :=
  ⟨rfl, rfl⟩

/-- C6: `typecheck` only appends to the flat instance list — the list present
before any call is a prefix of the list after it (shadowing happens solely by
later insertion, never by deletion or in-place mutation). -/
theorem typecheck_instances_append_only : ∀ (node : Node) (env : Env),
    ∃ added, (typecheck node env).2.instances = env.instances ++ added
  | .mk (.Integer v) loc, env => ⟨[], by simp [typecheck]⟩
  | .mk (.String v) loc, env => ⟨[], by simp [typecheck]⟩
  | .mk (.Variable name) loc, env => ⟨[], by
      cases h : env.get_instance_type name <;> simp [typecheck, h]⟩
  | .mk (.Assignment name value) loc, env => by
      obtain ⟨added, hadd⟩ := typecheck_instances_append_only value env
      cases hte : typecheck value env with
      | mk r env₁ =>
          rw [hte] at hadd
          cases r with
          | ok t =>
              refine ⟨added ++ [Instance.new name t], ?_⟩
              simp [typecheck, hte, Env.add_instance]
              simp at hadd
              rw [hadd, List.append_assoc]
          | error e =>
              refine ⟨added, ?_⟩
              simp [typecheck, hte]
              simpa using hadd

/-- C10: a `typecheck` call never changes the class table; only the instance
list may change. -/
theorem typecheck_preserves_classes : ∀ (node : Node) (env : Env),
    (typecheck node env).2.classes = env.classes
  | .mk (.Integer v) loc, env => by simp [typecheck]
  | .mk (.String v) loc, env => by simp [typecheck]
  | .mk (.Variable name) loc, env => by
      cases h : env.get_instance_type name <;> simp [typecheck, h]
  | .mk (.Assignment name value) loc, env => by
      have ih := typecheck_preserves_classes value env
      cases hte : typecheck value env with
      | mk r env₁ =>
          rw [hte] at ih
          cases r with
          | ok t => simp [typecheck, hte, Env.add_instance]; simpa using ih
          | error e => simp [typecheck, hte]; simpa using ih

/-- C9: error atomicity — whenever `typecheck` returns an error, the
environment is exactly as it was before the call; no instance binding is added
on any error path (an assignment only binds after its right-hand side
succeeded). -/
theorem typecheck_error_leaves_env : ∀ (node : Node) (env env₂ : Env)
    (err : TypecheckError),
    typecheck node env = (.error err, env₂) → env₂ = env
  | .mk (.Integer v) loc, env, env₂, err => by
      intro h
      simp [typecheck] at h
  | .mk (.String v) loc, env, env₂, err => by
      intro h
      simp [typecheck] at h
  | .mk (.Variable name) loc, env, env₂, err => by
      intro h
      cases hg : env.get_instance_type name <;> simp [typecheck, hg] at h
      exact h.2.symm
  | .mk (.Assignment name value) loc, env, env₂, err => by
      intro h
      cases hte : typecheck value env with
      | mk r env₁ =>
          cases r with
          | ok t => simp [typecheck, hte] at h
          | error e =>
              simp [typecheck, hte] at h
              have := typecheck_error_leaves_env value env env₁ e hte
              rw [h.2.symm]
              exact this

/-- Witness for C9 at a concrete input: reading unbound `x` in an empty
environment errors and leaves the environment untouched. -/
theorem typecheck_error_leaves_env_witness :
    typecheck (Node.mk (NodeType.Variable "x") ⟨1, 1⟩) (Env.new [] [])
        = (.error ⟨Node.mk (NodeType.Variable "x") ⟨1, 1⟩,
                   TypecheckErrorKind.UndefinedVariable "x"⟩, Env.new [] [])
    ∧ Env.new [] [] = Env.new [] [] :=
  ⟨rfl, typecheck_error_leaves_env (Node.mk (NodeType.Variable "x") ⟨1, 1⟩)
      (Env.new [] []) (Env.new [] [])
      ⟨Node.mk (NodeType.Variable "x") ⟨1, 1⟩, TypecheckErrorKind.UndefinedVariable "x"⟩
      rfl⟩

/-- C8: the recursion of `typecheck` terminates on every finite tree — with any
depth budget of at least `Node.size node`, the budgeted variant returns (it
never runs out of fuel) and returns exactly the full result of the total
function `typecheck`; the call completes only after the entire tree was
visited, with no suspension or cancellation. -/
theorem typecheck_terminates : ∀ (node : Node) (env : Env) (fuel : Nat),
    node.size ≤ fuel → typecheckF fuel node env = some (typecheck node env)
  | .mk (.Integer v) loc, env, fuel => by
      intro h
      cases fuel with
      | zero => simp [Node.size, NodeType.size] at h
      | succ fuel => simp [typecheckF, typecheck]
  | .mk (.String v) loc, env, fuel => by
      intro h
      cases fuel with
      | zero => simp [Node.size, NodeType.size] at h
      | succ fuel => simp [typecheckF, typecheck]
  | .mk (.Variable name) loc, env, fuel => by
      intro h
      cases fuel with
      | zero => simp [Node.size, NodeType.size] at h
      | succ fuel => cases hg : env.get_instance_type name <;>
          simp [typecheckF, typecheck, hg]
  | .mk (.Assignment name value) loc, env, fuel => by
      intro h
      cases fuel with
      | zero => simp [Node.size, NodeType.size] at h
      | succ fuel =>
          have hle : value.size ≤ fuel := by
            simp [Node.size, NodeType.size] at h
            omega
          have ih := typecheck_terminates value env fuel hle
          cases hte : typecheck value env with
          | mk r env₁ =>
              rw [hte] at ih
              cases r <;> simp [typecheckF, typecheck, hte, ih]

/-- Witness for C8 at a concrete input: `x = 42` has size 2 and typechecks
within budget 2. -/
theorem typecheck_terminates_witness :
    Node.size (Node.mk (NodeType.Assignment "x"
        (Node.mk (NodeType.Integer 42) ⟨1, 5⟩)) ⟨1, 1⟩) ≤ 2
    ∧ typecheckF 2 (Node.mk (NodeType.Assignment "x"
          (Node.mk (NodeType.Integer 42) ⟨1, 5⟩)) ⟨1, 1⟩) Env.default
        = some (typecheck (Node.mk (NodeType.Assignment "x"
            (Node.mk (NodeType.Integer 42) ⟨1, 5⟩)) ⟨1, 1⟩) Env.default) :=
  ⟨by decide, typecheck_terminates
      (Node.mk (NodeType.Assignment "x" (Node.mk (NodeType.Integer 42) ⟨1, 5⟩)) ⟨1, 1⟩)
      Env.default 2 (by decide)⟩

/-- C2: after a sequence of assignments to one name the last assignment alone
determines the name's resolved type (lookup scans the flat list newest first),
and at the `typecheck` level an assignment immediately followed by a read of
the same name yields exactly the just-assigned type. -/
theorem last_assignment_wins (env env₁ : Env) (name : String) (tys : List Ty)
    (ty t : Ty) (e : Node) (loc₁ loc₂ : Location)
    (h : typecheck (Node.mk (NodeType.Assignment name e) loc₁) env = (.ok t, env₁)) :
    ((tys ++ [ty]).foldl (fun ev tz => ev.add_instance name tz) env).get_instance_type
        name = some ty
    ∧ typecheck (Node.mk (NodeType.Variable name) loc₂) env₁ = (.ok t, env₁) := by
  constructor
  · rw [List.foldl_append]
    simp only [List.foldl_cons, List.foldl_nil]
    exact get_instance_type_add_self _ name ty
  · cases hte : typecheck e env with
    | mk r env₀ =>
        cases r with
        | ok t₀ =>
            simp [typecheck, hte] at h
            rcases h with ⟨ht, henv⟩
            subst ht
            subst henv
            simp [typecheck, get_instance_type_add_self]
        | error e₀ => simp [typecheck, hte] at h

/-- Witness for C2 at concrete inputs: after `x = "s"` (pre-existing binding)
and then `x = 7`, `x` resolves to `Integer`, and the read after the assignment
sees `Integer`. -/
theorem last_assignment_wins_witness :
    typecheck (Node.mk (NodeType.Assignment "x"
        (Node.mk (NodeType.Integer 7) ⟨1, 5⟩)) ⟨1, 1⟩) (Env.new [] [])
      = (.ok (Ty.Variable "Integer"),
         Env.new [Instance.new "x" (Ty.Variable "Integer")] [])
    ∧ (([Ty.Variable "String"] ++ [Ty.Variable "Integer"]).foldl
          (fun ev tz => ev.add_instance "x" tz) (Env.new [] [])).get_instance_type "x"
        = some (Ty.Variable "Integer")
    ∧ typecheck (Node.mk (NodeType.Variable "x") ⟨2, 1⟩)
          (Env.new [Instance.new "x" (Ty.Variable "Integer")] [])
        = (.ok (Ty.Variable "Integer"),
           Env.new [Instance.new "x" (Ty.Variable "Integer")] []) :=
  ⟨rfl,
   (last_assignment_wins (Env.new [] [])
      (Env.new [Instance.new "x" (Ty.Variable "Integer")] []) "x"
      [Ty.Variable "String"] (Ty.Variable "Integer") (Ty.Variable "Integer")
      (Node.mk (NodeType.Integer 7) ⟨1, 5⟩) ⟨1, 1⟩ ⟨2, 1⟩ rfl).1,
   (last_assignment_wins (Env.new [] [])
      (Env.new [Instance.new "x" (Ty.Variable "Integer")] []) "x"
      [Ty.Variable "String"] (Ty.Variable "Integer") (Ty.Variable "Integer")
      (Node.mk (NodeType.Integer 7) ⟨1, 5⟩) ⟨1, 1⟩ ⟨2, 1⟩ rfl).2⟩

/-- C3: an assignment whose right-hand side typechecks to `t` binds the target
name to `t` and yields `t` as its own value; end-to-end, `"x = y = 5"` parses
to nested assignments (the inner one, binding `y`, carries the inner
assignment's location, line 1 column 5) and typechecking binds both `x` and
`y` to `Integer`. -/
theorem assignment_binds_and_yields (name : String) (e : Node) (loc : Location)
    (env env₁ : Env) (t : Ty)
    (h : typecheck e env = (.ok t, env₁)) :
    typecheck (Node.mk (NodeType.Assignment name e) loc) env
        = (.ok t, env₁.add_instance name t)
    ∧ (env₁.add_instance name t).get_instance_type name = some t
    ∧ parse "x = y = 5" = .ok
        [Node.mk (NodeType.Assignment "x"
           (Node.mk (NodeType.Assignment "y"
              (Node.mk (NodeType.Integer 5) ⟨1, 9⟩)) ⟨1, 5⟩)) ⟨1, 1⟩]
    ∧ ((typecheck (Node.mk (NodeType.Assignment "x"
           (Node.mk (NodeType.Assignment "y"
              (Node.mk (NodeType.Integer 5) ⟨1, 9⟩)) ⟨1, 5⟩)) ⟨1, 1⟩)
         Env.default).2).get_instance_type "x" = some (Ty.Variable "Integer")
    ∧ ((typecheck (Node.mk (NodeType.Assignment "x"
           (Node.mk (NodeType.Assignment "y"
              (Node.mk (NodeType.Integer 5) ⟨1, 9⟩)) ⟨1, 5⟩)) ⟨1, 1⟩)
         Env.default).2).get_instance_type "y" = some (Ty.Variable "Integer") := by
  refine ⟨?_, get_instance_type_add_self _ _ _, rfl, rfl, rfl⟩
  simp [typecheck, h]

/-- Witness for C3 at a concrete input: `y = 5` in the default environment. -/
theorem assignment_binds_and_yields_witness :
    typecheck (Node.mk (NodeType.Integer 5) ⟨1, 9⟩) Env.default
        = (.ok (Ty.Variable "Integer"), Env.default)
    ∧ typecheck (Node.mk (NodeType.Assignment "y"
          (Node.mk (NodeType.Integer 5) ⟨1, 9⟩)) ⟨1, 5⟩) Env.default
        = (.ok (Ty.Variable "Integer"),
           Env.default.add_instance "y" (Ty.Variable "Integer")) :=
  ⟨rfl, (assignment_binds_and_yields "y" (Node.mk (NodeType.Integer 5) ⟨1, 9⟩)
      ⟨1, 5⟩ Env.default Env.default (Ty.Variable "Integer") rfl).1⟩

/-- C5: end-to-end for the minimal language — parsing `"x = 123"` succeeds
with the expected located tree, and typechecking it in the default environment
resolves instance `x` to `Integer` (the assignment itself also evaluating to
`Integer`). -/
theorem end_to_end_x_123 :
    parse "x = 123" = .ok
      [Node.mk (NodeType.Assignment "x" (Node.mk (NodeType.Integer 123) ⟨1, 5⟩)) ⟨1, 1⟩]
    ∧ ((typecheck (Node.mk (NodeType.Assignment "x"
          (Node.mk (NodeType.Integer 123) ⟨1, 5⟩)) ⟨1, 1⟩)
        Env.default).2).get_instance_type "x" = some (Ty.Variable "Integer")
    ∧ (typecheck (Node.mk (NodeType.Assignment "x"
          (Node.mk (NodeType.Integer 123) ⟨1, 5⟩)) ⟨1, 1⟩)
        Env.default).1 = .ok (Ty.Variable "Integer") :=
  ⟨rfl, rfl, rfl⟩

/-- C7 counterexample: the default environment of the minimal front end is not
pre-seeded with any object — its instance list is empty, so no root object
exists in it. -/
theorem default_env_has_no_root_object : ¬ ∃ inst, inst ∈ Env.default.instances := by
  simp [Env.default]

/-- C7 as amended: the default environment pre-seeds no object (its instance
list is empty); separately, its class table does contain the built-in class
`Integer` exposing `to_s` with an empty argument list and return type
`String`. -/
theorem default_env_classes :
    Env.default.instances = []
    ∧ Env.default.get_class "Integer"
        = some (Class.new [("to_s", Ty.Function [] "String")]) :=
  ⟨rfl, rfl⟩

/-- C1: a variable read with no prior binding in the active scope records
exactly one `UndefinedVariable` error for that read (appended to the log, which
is otherwise untouched), pushes the reserved "Unknown" sentinel as the read's
value, and aborts nothing — the visit is a total function whose result still
carries the full bindings (objects and scopes unchanged by the read); the
closing conjuncts run a whole tree that continues past the failed read and
still binds the write that follows it. -/
theorem undefined_read_records_one_error (name : String) (span : Location)
    (tc : TypeChecker) (h : tc.lookupActive name = none) :
    ((tc.visit (SNode.varRead name span)).errors
        = tc.errors ++ [⟨STypeErrorKind.undefinedVariable name, span⟩]
    ∧ (tc.visit (SNode.varRead name span)).value_stack
        = SType.alias "Unknown" :: tc.value_stack
    ∧ (tc.visit (SNode.varRead name span)).objects = tc.objects
    ∧ (tc.visit (SNode.varRead name span)).scopes = tc.scopes)
    ∧ ((TypeChecker.new.visit (SNode.seq
          [SNode.varRead "x" ⟨1, 1⟩,
           SNode.varWrite "y" (SNode.intLit 1 ⟨2, 5⟩) ⟨2, 1⟩] ⟨1, 1⟩)).errors
        = [⟨STypeErrorKind.undefinedVariable "x", ⟨1, 1⟩⟩]
    ∧ (TypeChecker.new.visit (SNode.seq
          [SNode.varRead "x" ⟨1, 1⟩,
           SNode.varWrite "y" (SNode.intLit 1 ⟨2, 5⟩) ⟨2, 1⟩] ⟨1, 1⟩)).lookupActive "y"
        = some (SType.alias "Integer")) := by
  constructor
  · simp [TypeChecker.visit, h]
  · constructor <;>
      simp [TypeChecker.visit, TypeChecker.visitSeq, TypeChecker.new,
        TypeChecker.lookupActive, TypeChecker.bindActive, TypeChecker.pushValue,
        TypeChecker.popValue, TypeChecker.peekValue, mapGet, mapInsert]

/-- Witness for C1 at a concrete input: reading unbound `x` in a fresh engine. -/
theorem undefined_read_records_one_error_witness :
    TypeChecker.new.lookupActive "x" = none
    ∧ (TypeChecker.new.visit (SNode.varRead "x" ⟨1, 1⟩)).errors
        = TypeChecker.new.errors ++ [⟨STypeErrorKind.undefinedVariable "x", ⟨1, 1⟩⟩]
    ∧ (TypeChecker.new.visit (SNode.varRead "x" ⟨1, 1⟩)).value_stack
        = SType.alias "Unknown" :: TypeChecker.new.value_stack :=
  ⟨rfl,
   (undefined_read_records_one_error "x" ⟨1, 1⟩ TypeChecker.new rfl).1.1,
   (undefined_read_records_one_error "x" ⟨1, 1⟩ TypeChecker.new rfl).1.2.1⟩

end RubyAnalyzer
